import Mathlib

/-!
Verification of the Session & Stream Lifecycle Controller described by the
TRTC_UnrealEngine repository. The repository ships a single public header
(`TRTCCloud.h`) that declares a facade over a closed-source engine; every
behavioural contract lives in the header's documentation and in the spec,
so the definitions below are shallow embeddings modelled from those words.
-/

namespace TRTC

/-- Video stream types of a remote user (`TRTCVideoStreamType` in the header):
`Big` is the HD image, `Small` the low-bitrate image, `Sub` the substream
(screen sharing). -/
inductive TRTCVideoStreamType
  | Big
  | Small
  | Sub
deriving DecidableEq, Repr

/-- User roles (`TRTCRoleType` in the header). -/
inductive TRTCRoleType
  | Anchor
  | Audience
deriving DecidableEq, Repr

/-- Application scenes (`TRTCAppScene` in the header). -/
inductive TRTCAppScene
  | VideoCall
  | AudioCall
  | Live
  | VoiceChatRoom
deriving DecidableEq, Repr

/-- Room session phases of the Room Session State Machine (spec section 4.4). -/
inductive RoomPhase
  | Idle
  | Entering
  | Joined
  | Exiting
deriving DecidableEq, Repr

/-- A resolved room reference: exactly one of a numeric id or a string id
(spec section 3, invariant set). -/
inductive RoomRef
  | numeric (id : Nat)
  | str (s : String)
deriving DecidableEq, Repr

/-- The `TRTCSwitchRoomConfig` of the header: carries both a numeric `roomId`
(0 meaning unset) and a string `strRoomId` (empty meaning unset), plus
credentials. -/
structure TRTCSwitchRoomConfig where
  roomId : Nat
  strRoomId : String
  userSig : String
  privateMapKey : String
deriving DecidableEq, Repr

/-- Modelled from the spec: the room-reference resolution of `switchRoom`
(header 2.5, note 1: "If you decide to use `strRoomId`, then set `roomId` to 0.
If both are specified, `roomId` will be used."). The implementation behind the
header is missing from the repository; this function realises the documented
resolution: a nonzero numeric id wins, otherwise a nonempty string id is used,
otherwise the reference is rejected (`none`). -/
def resolveSwitchRoomRef (cfg : TRTCSwitchRoomConfig) : Option RoomRef :=
  if cfg.roomId ≠ 0 then some (RoomRef.numeric cfg.roomId)
  else if cfg.strRoomId ≠ "" then some (RoomRef.str cfg.strRoomId)
  else none

/-- Room-entry parameters (`TRTCParams` in the header), restricted to the
fields the lifecycle controller reads. -/
structure TRTCParams where
  userId : String
  roomId : Nat
  strRoomId : String
  role : TRTCRoleType
deriving DecidableEq, Repr

/-- Subscription states of a remote stream (spec section 3, `RemoteStream`). -/
inductive SubState
  | NotSubscribed
  | Subscribing
  | Active
  | Muted
deriving DecidableEq, Repr

/-- One Stream Registry entry: the subscription state and render target of a
remote (userId, streamType) pair (spec section 3, `RemoteStream`). Render
targets (`TXView`) are opaque caller-owned handles, modelled as `Nat`. -/
structure RegEntry where
  userId : String
  streamType : TRTCVideoStreamType
  state : SubState
  target : Option Nat
deriving DecidableEq, Repr

/-- The Stream Registry: the remote-stream subscription table of one session
(spec section 4.2). -/
abbrev Registry := List RegEntry

/-- The Big/Small partner excluded by subscribing to a stream type: the header
(4.7, note 1) documents that watching Big and Small of one user at the same
time is not supported, while Sub may coexist with either. -/
def rival : TRTCVideoStreamType → Option TRTCVideoStreamType
  | TRTCVideoStreamType.Big => some TRTCVideoStreamType.Small
  | TRTCVideoStreamType.Small => some TRTCVideoStreamType.Big
  | TRTCVideoStreamType.Sub => none

/-- Modelled from the spec: `subscribe` of the Stream Registry
(`startRemoteView` in the header; the implementation is missing from the
repository). Subscribing removes any entry of the excluded Big/Small partner
of the same user, replaces any previous entry for the same key (idempotent
re-subscription with a new render target), and records the stream Active. -/
def subscribe (r : Registry) (u : String) (st : TRTCVideoStreamType) (target : Nat) : Registry :=
  let cleared := r.filter fun e => !decide (e.userId = u ∧ some e.streamType = rival st)
  let removed := cleared.filter fun e => !decide (e.userId = u ∧ e.streamType = st)
  { userId := u, streamType := st, state := SubState.Active, target := some target } :: removed

/-- Modelled from the spec: `unsubscribe` of the Stream Registry
(`stopRemoteView` in the header; the implementation is missing from the
repository). -/
def unsubscribe (r : Registry) (u : String) (st : TRTCVideoStreamType) : Registry :=
  r.filter fun e => !decide (e.userId = u ∧ e.streamType = st)

/-- Modelled from the spec: `unsubscribe(All)` of the Stream Registry
(`stopAllRemoteView` in the header): clears the registry atomically. -/
def unsubscribeAll (_ : Registry) : Registry := []

/-- Modelled from the spec: `setMute` of the Stream Registry
(`muteRemoteVideoStream` in the header): pauses or resumes an existing
subscription without releasing it. -/
def setMuteStream (r : Registry) (u : String) (st : TRTCVideoStreamType) (mute : Bool) : Registry :=
  r.map fun e =>
    if e.userId = u ∧ e.streamType = st then
      { e with state := if mute then SubState.Muted else SubState.Active }
    else e

/-- Modelled from the spec: `updateTarget` of the Stream Registry
(`updateRemoteView` in the header): replaces the render target of an existing
entry. -/
def updateTarget (r : Registry) (u : String) (st : TRTCVideoStreamType) (target : Nat) : Registry :=
  r.map fun e =>
    if e.userId = u ∧ e.streamType = st then { e with target := some target } else e

/-- The operations of the Stream Registry (spec section 4.2). -/
inductive RegOp
  | subscribe (u : String) (st : TRTCVideoStreamType) (target : Nat)
  | unsubscribe (u : String) (st : TRTCVideoStreamType)
  | unsubscribeAll
  | setMute (u : String) (st : TRTCVideoStreamType) (mute : Bool)
  | updateTarget (u : String) (st : TRTCVideoStreamType) (target : Nat)
deriving DecidableEq, Repr

/-- Interpretation of one Stream Registry operation. -/
def applyRegOp (op : RegOp) (r : Registry) : Registry :=
  match op with
  | RegOp.subscribe u st t => subscribe r u st t
  | RegOp.unsubscribe u st => unsubscribe r u st
  | RegOp.unsubscribeAll => unsubscribeAll r
  | RegOp.setMute u st m => setMuteStream r u st m
  | RegOp.updateTarget u st t => updateTarget r u st t

/-- Interpretation of a sequence of Stream Registry operations. -/
def applyRegOps : List RegOp → Registry → Registry
  | [], r => r
  | op :: ops, r => applyRegOps ops (applyRegOp op r)

/-- The user `u` holds an Active subscription of stream type `st`. -/
def activeFor (r : Registry) (u : String) (st : TRTCVideoStreamType) : Prop :=
  ∃ e ∈ r, e.userId = u ∧ e.streamType = st ∧ e.state = SubState.Active

/-- The registry holds some entry (in any state) for `(u, st)`. -/
def hasEntry (r : Registry) (u : String) (st : TRTCVideoStreamType) : Prop :=
  ∃ e ∈ r, e.userId = u ∧ e.streamType = st

/-- The documented Big/Small mutual-exclusivity invariant: no user ever has
both the Big and the Small stream Active. -/
def bigSmallExclusive (r : Registry) : Prop :=
  ∀ u, ¬(activeFor r u TRTCVideoStreamType.Big ∧ activeFor r u TRTCVideoStreamType.Small)

/-- The stronger structural invariant the registry maintains: no user has
entries (in any state) for Big and Small simultaneously. -/
def noBigSmallPair (r : Registry) : Prop :=
  ∀ u, ¬(hasEntry r u TRTCVideoStreamType.Big ∧ hasEntry r u TRTCVideoStreamType.Small)

/-- A Session: one Controller (`TRTCCloud`) instance, with the attributes the
spec's data model lists (identity, current room, role, registry, mute flags,
device-capture state, subscription-mode defaults). -/
structure Session where
  phase : RoomPhase
  room : Option RoomRef
  scene : TRTCAppScene
  userId : String
  role : TRTCRoleType
  registry : Registry
  muteAllRemoteAudioFlag : Bool
  muteAllRemoteVideoFlag : Bool
  remoteAudioMuted : List String
  remoteVideoPaused : List (String × TRTCVideoStreamType)
  localPreviewOn : Bool
  localAudioOn : Bool
  muteLocalAudioFlag : Bool
  muteLocalVideoFlag : Bool
  autoRecvAudio : Bool
  autoRecvVideo : Bool
deriving DecidableEq, Repr

/-- The default role: the header (2.3) documents the role as "anchor" by
default. -/
def defaultRole : TRTCRoleType := TRTCRoleType.Anchor

/-- A freshly constructed Session: idle, empty registry, all mute and pause
flags unmuted, automatic subscription defaults (header 2.8), default role. -/
def freshSession : Session where
  phase := RoomPhase.Idle
  room := none
  scene := TRTCAppScene.VideoCall
  userId := ""
  role := defaultRole
  registry := []
  muteAllRemoteAudioFlag := false
  muteAllRemoteVideoFlag := false
  remoteAudioMuted := []
  remoteVideoPaused := []
  localPreviewOn := false
  localAudioOn := false
  muteLocalAudioFlag := false
  muteLocalVideoFlag := false
  autoRecvAudio := true
  autoRecvVideo := true

/-- The engine's asynchronous acknowledgment of a room-entry command: success
carries the room-entry latency in milliseconds, failure carries an encoded
error cause (reported to the caller as the negative code `-(1 + errCause)`). -/
inductive EnterAck
  | success (latencyMs : Nat)
  | failure (errCause : Nat)
deriving DecidableEq, Repr

/-- Asynchronous completion events delivered through the Event Dispatcher
(`TRTCCloudDelegate` callbacks in the header). -/
inductive CompletionEvent
  | onEnterRoom (result : Int)
  | onExitRoom
  | onSwitchRoom (errCode : Int)
deriving DecidableEq, Repr

/-- The room reference used by `enterRoom`: a nonzero numeric id wins,
otherwise the string id is used (header 2.5 note, same convention for
`TRTCParams`). -/
def enterRoomResolveRef (p : TRTCParams) : RoomRef :=
  if p.roomId ≠ 0 then RoomRef.numeric p.roomId else RoomRef.str p.strRoomId

/-- Modelled from the spec: the synchronous part of `enterRoom` (header 2.1;
the implementation is missing from the repository). The return value is void
(`Unit`); the session optimistically advances to the Entering phase and the
outcome is only observable through the event channel. -/
def enterRoomSync (s : Session) (_ : TRTCParams) (_ : TRTCAppScene) : Unit × Session :=
  ((), { s with phase := RoomPhase.Entering })

/-- Modelled from the spec: the state reached after a successful, engine
acknowledged room entry (header 2.1): Joined phase, the resolved room, the
identity and role taken from the entry parameters. -/
def enterRoomDone (s : Session) (p : TRTCParams) (scene : TRTCAppScene) : Session :=
  { s with
    phase := RoomPhase.Joined
    room := some (enterRoomResolveRef p)
    scene := scene
    userId := p.userId
    role := p.role }

/-- Modelled from the spec: the complete `enterRoom` command (header 2.1; the
implementation is missing from the repository). The synchronous part returns
void; the engine acknowledgment then yields exactly one `onEnterRoom` event:
a non-negative latency and the Joined phase on success, a negative error code
and a rollback to the pre-command state on failure (spec section 4.4, failure
semantics). -/
def enterRoomCmd (s : Session) (p : TRTCParams) (scene : TRTCAppScene) (ack : EnterAck) :
    Session × List CompletionEvent :=
  let entering := (enterRoomSync s p scene).2
  match ack with
  | EnterAck.success ms => (enterRoomDone entering p scene, [CompletionEvent.onEnterRoom (ms : Int)])
  | EnterAck.failure e => (s, [CompletionEvent.onEnterRoom (-(1 + (e : Int)))])

/-- Modelled from the spec: the state reached after `exitRoom` completes
(header 2.2; the implementation is missing from the repository): device and
capture resources released, registry cleared atomically, remote mute and
pause flags reset to unmuted, role back to the default, Idle phase. -/
def exitRoomDone (s : Session) : Session :=
  { s with
    phase := RoomPhase.Idle
    room := none
    role := defaultRole
    registry := []
    muteAllRemoteAudioFlag := false
    muteAllRemoteVideoFlag := false
    remoteAudioMuted := []
    remoteVideoPaused := []
    localPreviewOn := false
    localAudioOn := false }

/-- Modelled from the spec: `switchRoom` (header 2.5; the implementation is
missing from the repository). The room reference is resolved preferring the
numeric id; an unresolvable reference rejects the command without a state
change. For the Audience role the switch behaves like leaving the current
room and entering the new one; for the Anchor role the local capture and
publishing state (camera preview, sound capturing, local mute flags) is
preserved across the transition. -/
def switchRoom (s : Session) (cfg : TRTCSwitchRoomConfig) : Session :=
  match resolveSwitchRoomRef cfg with
  | none => s
  | some ref =>
    if s.role = TRTCRoleType.Audience then
      { s with
        phase := RoomPhase.Joined
        room := some ref
        registry := []
        muteAllRemoteAudioFlag := false
        muteAllRemoteVideoFlag := false
        remoteAudioMuted := []
        remoteVideoPaused := []
        localPreviewOn := false
        localAudioOn := false }
    else
      { s with
        phase := RoomPhase.Joined
        room := some ref
        registry := []
        muteAllRemoteAudioFlag := false
        muteAllRemoteVideoFlag := false
        remoteAudioMuted := []
        remoteVideoPaused := [] }

/-- Publishing modes of `TRTCPublishTarget` (header 3.6): relay the big or
sub stream to a CDN without transcoding, or mix-transcode to a CDN or to a
TRTC room. -/
inductive TRTCPublishMode
  | Unknown
  | BigStreamToCdn
  | SubStreamToCdn
  | MixStreamToCdn
  | MixStreamToRoom
deriving DecidableEq, Repr

/-- A PublishTask of the Publishing Task Manager (spec section 3): a CDN
relay / mix-transcode job with its engine-assigned task id, the session that
started it, and its (mode, CDN URL set) target descriptor. -/
structure PublishTask where
  taskId : String
  owner : String
  mode : TRTCPublishMode
  cdnUrls : List String
deriving DecidableEq, Repr

/-- The Publishing Task Manager's pool of active tasks, across all sessions
of the process. -/
abbrev TaskPool := List PublishTask

/-- Decidable set-equality of two CDN URL lists (the duplicate check compares
URL sets, not lists). -/
def urlSetEq (a b : List String) : Bool :=
  (a.all fun u => decide (u ∈ b)) && (b.all fun u => decide (u ∈ a))

/-- The local duplicate check of `startPublishMediaStream` (header 3.6 note
2): some active task of this session already has the same publishing mode and
the same CDN URL set. -/
def duplicateTarget (pool : TaskPool) (sid : String) (mode : TRTCPublishMode)
    (urls : List String) : Bool :=
  pool.any fun t => decide (t.owner = sid) && decide (t.mode = mode) && urlSetEq t.cdnUrls urls

/-- Local synchronous errors of the Publishing Task Manager (spec sections
4.3 and 7). -/
inductive PublishError
  | DuplicatePublishTarget
  | UnknownTask
  | IncompatibleModeSwitch
deriving DecidableEq, Repr

/-- Outcome of the synchronous part of `startPublishMediaStream`: either a
local rejection or the new task pool, together with whether the command was
forwarded to the engine. -/
structure StartPublishOutcome where
  result : Except PublishError TaskPool
  engineContacted : Bool

/-- Modelled from the spec: `start` of the Publishing Task Manager
(`startPublishMediaStream` in the header; the implementation is missing from
the repository). A request whose (mode, CDN URL set) pair is already active
for this session is rejected locally with `DuplicatePublishTarget` and never
reaches the engine; otherwise the task is recorded and the engine is
contacted. -/
def startPublishMediaStream (pool : TaskPool) (sid : String) (mode : TRTCPublishMode)
    (urls : List String) (newTaskId : String) : StartPublishOutcome :=
  if duplicateTarget pool sid mode urls then
    { result := Except.error PublishError.DuplicatePublishTarget, engineContacted := false }
  else
    { result := Except.ok ({ taskId := newTaskId, owner := sid, mode := mode, cdnUrls := urls } :: pool)
      engineContacted := true }

/-- Modelled from the spec: `stop` of the Publishing Task Manager
(`stopPublishMediaStream` in the header; the implementation is missing from
the repository). With the `none` sentinel (empty task id) every task started
by this session is terminated; with a concrete task id only that task of this
session is terminated. Tasks of other sessions are never touched. -/
def stopPublishMediaStream (pool : TaskPool) (sid : String) (taskId : Option String) : TaskPool :=
  match taskId with
  | none => pool.filter fun t => !decide (t.owner = sid)
  | some id => pool.filter fun t => !decide (t.owner = sid ∧ t.taskId = id)

/-- A session is actively holding local publish ownership: joined as an
Anchor with local audio or video unmuted (header 2.9: one may exist as an
anchor in only one instance at any time). -/
def isPublishing (s : Session) : Bool :=
  decide (s.phase = RoomPhase.Joined) && decide (s.role = TRTCRoleType.Anchor) &&
    (!s.muteLocalAudioFlag || !s.muteLocalVideoFlag)

/-- Session-level commands of the multi-session (sub-instance) process model
used for the cross-session publishing analysis. -/
inductive SessCmd
  | enterRoomOk (p : TRTCParams) (scene : TRTCAppScene)
  | exitRoom
  | switchRole (role : TRTCRoleType)
  | switchRoomTo (cfg : TRTCSwitchRoomConfig)
  | muteLocalAudio (mute : Bool)
  | muteLocalVideo (mute : Bool)
  | startLocalAudio
  | stopLocalAudio
  | startLocalPreview
  | stopLocalPreview
deriving DecidableEq, Repr

/-- Modelled from the spec: the per-session effect of each command (the
implementations are missing from the repository; `switchRole` is only
effective in the Live and VoiceChatRoom scenes, header 2.3 note 1). -/
def applySessCmd (c : SessCmd) (s : Session) : Session :=
  match c with
  | SessCmd.enterRoomOk p scene => enterRoomDone s p scene
  | SessCmd.exitRoom => exitRoomDone s
  | SessCmd.switchRole role =>
      if s.scene = TRTCAppScene.Live ∨ s.scene = TRTCAppScene.VoiceChatRoom then
        { s with role := role }
      else s
  | SessCmd.switchRoomTo cfg => switchRoom s cfg
  | SessCmd.muteLocalAudio b => { s with muteLocalAudioFlag := b }
  | SessCmd.muteLocalVideo b => { s with muteLocalVideoFlag := b }
  | SessCmd.startLocalAudio => { s with localAudioOn := true }
  | SessCmd.stopLocalAudio => { s with localAudioOn := false }
  | SessCmd.startLocalPreview => { s with localPreviewOn := true }
  | SessCmd.stopLocalPreview => { s with localPreviewOn := false }

/-- The state of a process holding several Controller instances
(sub-instances), keyed by an instance id. -/
abbrev ProcState := List (String × Session)

/-- Process-level commands: create a sub-instance (header 2.9) or issue a
session command to one instance. -/
inductive ProcCmd
  | createSubCloud (id : String)
  | toSession (id : String) (c : SessCmd)
deriving DecidableEq, Repr

/-- Modelled from the spec: the process-level step. No cross-session
arbitration is performed: a command addressed to one instance changes only
that instance (spec section 5: ownership switching is a caller-coordinated
protocol, not automatically arbitrated by the controller). -/
def applyProcCmd (p : ProcState) (c : ProcCmd) : ProcState :=
  match c with
  | ProcCmd.createSubCloud id => p ++ [(id, freshSession)]
  | ProcCmd.toSession id c => p.map fun is => if is.1 = id then (is.1, applySessCmd c is.2) else is

/-- The initial process state: the shared singleton instance only. -/
def initialProc : ProcState := [("main", freshSession)]

/-- The process state reached by a command sequence from the initial state:
the reachable states of the multi-session model. -/
def runProc (cmds : List ProcCmd) : ProcState := cmds.foldl applyProcCmd initialProc

/-- At most one instance of the process holds active local publish
ownership. -/
def atMostOnePublisher (p : ProcState) : Prop :=
  ∀ a ∈ p, ∀ b ∈ p, isPublishing a.2 = true → isPublishing b.2 = true → a.1 = b.1

/-- A command sequence that reaches a state with two simultaneously
publishing instances: the main instance enters a room as an Anchor, a
sub-instance is created and also enters a room as an Anchor, and no layer
demotes or mutes the first one. -/
def twoPublishersCmds : List ProcCmd :=
  [ProcCmd.toSession "main" (SessCmd.enterRoomOk
      { userId := "alice", roomId := 101, strRoomId := "", role := TRTCRoleType.Anchor }
      TRTCAppScene.Live),
   ProcCmd.createSubCloud "sub",
   ProcCmd.toSession "sub" (SessCmd.enterRoomOk
      { userId := "alice", roomId := 102, strRoomId := "", role := TRTCRoleType.Anchor }
      TRTCAppScene.Live)]

/-- Audio recording parameters (`TRTCAudioRecordingParams` in the header):
the path of the recording file, whose extension selects the format. -/
structure TRTCAudioRecordingParams where
  filePath : String
deriving DecidableEq, Repr

/-- The audio file formats the recorder supports, recognised by the file
extension (PCM, WAV and AAC). -/
def supportedAudioExt (path : String) : Bool :=
  path.endsWith ".pcm" || path.endsWith ".wav" || path.endsWith ".aac"

/-- The audio recorder's state: whether a recording task is running. -/
structure AudioRecorder where
  recording : Bool
deriving DecidableEq, Repr

/-- Modelled from the spec: `startAudioRecording` (header 5.13; the
implementation is missing from the repository). Its documented contract:
returns 0 on success, -1 if audio recording has already been started, -2 if
the file or directory could not be created (the file system is modelled by
the `fileCreatable` input), -3 if the audio format of the file extension is
not supported. Only the success path starts the recording. -/
def startAudioRecording (rec : AudioRecorder) (param : TRTCAudioRecordingParams)
    (fileCreatable : Bool) : Int × AudioRecorder :=
  if rec.recording then (-1, rec)
  else if !fileCreatable then (-2, rec)
  else if !supportedAudioExt param.filePath then (-3, rec)
  else (0, { recording := true })

/-- An external PCM audio frame (`TRTCAudioFrame` in the header), restricted
to the fields the buffer-pool bookkeeping reads. -/
structure TRTCAudioFrame where
  sampleRate : Nat
  channel : Nat
  dataBytes : Nat
  timestamp : Nat
deriving DecidableEq, Repr

/-- Duration in milliseconds of a 16-bit PCM frame (header 10.4: at sample
rate 48000, mono, a 20 ms frame is 1920 bytes). -/
def frameDurationMs (f : TRTCAudioFrame) : Nat :=
  if f.sampleRate * f.channel = 0 then 0 else f.dataBytes * 1000 / (f.sampleRate * f.channel * 2)

/-- The custom audio track mixer's state: the two enable flags of
`enableMixExternalAudioFrame` and the size of the buffer pool in
milliseconds. -/
structure ExternalAudioMixer where
  enablePublishFlag : Bool
  enablePlayoutFlag : Bool
  bufferMs : Nat
deriving DecidableEq, Repr

/-- Modelled from the spec: `enableMixExternalAudioFrame` (header 10.5; the
implementation is missing from the repository): records the publish and
playout flags; with both false the custom audio track is completely closed. -/
def enableMixExternalAudioFrame (m : ExternalAudioMixer) (pub play : Bool) : ExternalAudioMixer :=
  { m with enablePublishFlag := pub, enablePlayoutFlag := play }

/-- The custom audio track is enabled: at least one of the two flags of
`enableMixExternalAudioFrame` is set. -/
def mixEnabled (m : ExternalAudioMixer) : Bool :=
  m.enablePublishFlag || m.enablePlayoutFlag

/-- Modelled from the spec: `mixExternalAudioFrame` (header 10.6; the
implementation is missing from the repository). Its documented contract:
returns -1 when custom audio tracks were not first enabled through
`enableMixExternalAudioFrame`; otherwise buffers the frame and returns the
current size of the buffer pool in milliseconds (a value of 0 or greater). -/
def mixExternalAudioFrame (m : ExternalAudioMixer) (f : TRTCAudioFrame) :
    Int × ExternalAudioMixer :=
  if !mixEnabled m then (-1, m)
  else
    let buf := m.bufferMs + frameDurationMs f
    ((buf : Int), { m with bufferMs := buf })

/-- Concrete task pool used to exercise the Publishing Task Manager: two
tasks of session `s1` and one task of session `s2`. -/
def demoPool : TaskPool :=
  [{ taskId := "t1", owner := "s1", mode := TRTCPublishMode.MixStreamToCdn,
     cdnUrls := ["u1", "u2", "u3"] },
   { taskId := "t2", owner := "s1", mode := TRTCPublishMode.BigStreamToCdn,
     cdnUrls := ["u4"] },
   { taskId := "t3", owner := "s2", mode := TRTCPublishMode.MixStreamToCdn,
     cdnUrls := ["u5"] }]

/-- Concrete joined session used as a witness input. -/
def demoSession : Session :=
  { freshSession with
    phase := RoomPhase.Joined
    room := some (RoomRef.numeric 101)
    scene := TRTCAppScene.Live
    userId := "alice"
    role := TRTCRoleType.Audience
    localPreviewOn := true
    localAudioOn := true }

/-- Concrete room-switch configuration supplying both a numeric and a string
room id. -/
def demoCfg : TRTCSwitchRoomConfig :=
  { roomId := 42, strRoomId := "backup", userSig := "sig", privateMapKey := "" }

/-- Concrete registry holding the Big stream and the Sub stream of one user
at the same time (the combination the header documents as supported). -/
def demoRegistry : Registry :=
  subscribe (subscribe [] "alice" TRTCVideoStreamType.Big 1) "alice" TRTCVideoStreamType.Sub 2

/-- Concrete room-entry parameters used as a witness input. -/
def demoParams : TRTCParams :=
  { userId := "alice", roomId := 101, strRoomId := "", role := TRTCRoleType.Anchor }

/-- A mixer with the custom audio track enabled for publishing and 30 ms of
buffered audio. -/
def demoMixer : ExternalAudioMixer :=
  { enablePublishFlag := true, enablePlayoutFlag := false, bufferMs := 30 }

/-- A 20 ms mono 48 kHz PCM frame (1920 bytes, header 10.4). -/
def demoFrame : TRTCAudioFrame :=
  { sampleRate := 48000, channel := 1, dataBytes := 1920, timestamp := 0 }

/-- C6: for every room reference of a room-switch operation, exactly one of
the numeric and the string room id is accepted: a nonzero numeric id is
deterministically preferred and used even when the string id is also
supplied, the string id is used only when the numeric id is unset, and a
reference with neither id is rejected; `switchRoom` itself uses the numeric
room id whenever it is supplied. -/
theorem switchRoom_room_ref_resolution (cfg : TRTCSwitchRoomConfig) :
    (cfg.roomId ≠ 0 → resolveSwitchRoomRef cfg = some (RoomRef.numeric cfg.roomId))
  ∧ (cfg.roomId = 0 → cfg.strRoomId ≠ "" →
       resolveSwitchRoomRef cfg = some (RoomRef.str cfg.strRoomId))
  ∧ (cfg.roomId = 0 → cfg.strRoomId = "" → resolveSwitchRoomRef cfg = none)
  ∧ (∀ s : Session, cfg.roomId ≠ 0 →
       (switchRoom s cfg).room = some (RoomRef.numeric cfg.roomId)) := by
  refine ⟨?_, ?_, ?_, ?_⟩
  · intro h; simp [resolveSwitchRoomRef, h]
  · intro h0 hs; simp [resolveSwitchRoomRef, h0, hs]
  · intro h0 hs; simp [resolveSwitchRoomRef, h0, hs]
  · intro s h
    have hres : resolveSwitchRoomRef cfg = some (RoomRef.numeric cfg.roomId) := by
      simp [resolveSwitchRoomRef, h]
    unfold switchRoom
    rw [hres]
    by_cases hr : s.role = TRTCRoleType.Audience <;> simp [hr]

/-- Witness for C6: with both ids supplied (numeric 42, string "backup"),
the numeric id is resolved and used. -/
theorem switchRoom_room_ref_resolution_witness :
    resolveSwitchRoomRef demoCfg = some (RoomRef.numeric 42)
  ∧ (switchRoom demoSession demoCfg).room = some (RoomRef.numeric 42) :=
  ⟨(switchRoom_room_ref_resolution demoCfg).1 (by decide),
   (switchRoom_room_ref_resolution demoCfg).2.2.2 demoSession (by decide)⟩

/-- C4: stopping with the `none` task-id sentinel on the Publishing Task
Manager terminates exactly the tasks started by that session: a task remains
in the pool if and only if it was there before and belongs to a different
session. -/
theorem stopPublishMediaStream_none_stops_all_own (pool : TaskPool) (sid : String)
    (t : PublishTask) :
    t ∈ stopPublishMediaStream pool sid none ↔ (t ∈ pool ∧ t.owner ≠ sid) := by
  simp [stopPublishMediaStream, List.mem_filter]

/-- Witness for C4: in the concrete pool, session `s1`'s task is gone and
session `s2`'s task survives `stop(None)` issued by `s1`. -/
theorem stopPublishMediaStream_none_stops_all_own_witness :
    ({ taskId := "t3", owner := "s2", mode := TRTCPublishMode.MixStreamToCdn,
       cdnUrls := ["u5"] } : PublishTask) ∈ stopPublishMediaStream demoPool "s1" none
  ∧ ({ taskId := "t1", owner := "s1", mode := TRTCPublishMode.MixStreamToCdn,
       cdnUrls := ["u1", "u2", "u3"] } : PublishTask) ∉ stopPublishMediaStream demoPool "s1" none := by
  constructor
  · exact (stopPublishMediaStream_none_stops_all_own demoPool "s1" _).mpr (by decide)
  · intro h
    exact absurd ((stopPublishMediaStream_none_stops_all_own demoPool "s1" _).mp h).2 (by decide)

/-- A semantic duplicate (an active task of the same session with the same
mode and the same CDN URL set) makes the local duplicate check fire. -/
theorem duplicateTarget_of_mem (pool : TaskPool) (sid : String) (mode : TRTCPublishMode)
    (urls : List String) (t : PublishTask) (ht : t ∈ pool) (hown : t.owner = sid)
    (hmode : t.mode = mode) (hsub : ∀ u ∈ t.cdnUrls, u ∈ urls)
    (hsup : ∀ u ∈ urls, u ∈ t.cdnUrls) :
    duplicateTarget pool sid mode urls = true := by
  unfold duplicateTarget
  rw [List.any_eq_true]
  refine ⟨t, ht, ?_⟩
  rw [Bool.and_eq_true, Bool.and_eq_true]
  refine ⟨⟨by simp [hown], by simp [hmode]⟩, ?_⟩
  unfold urlSetEq
  rw [Bool.and_eq_true, List.all_eq_true, List.all_eq_true]
  exact ⟨fun u hu => by simp [hsub u hu], fun u hu => by simp [hsup u hu]⟩

/-- C5: starting a publishing task whose (mode, CDN URL set) pair is
identical to an already-active task of the same session fails synchronously
and locally with `DuplicatePublishTarget`, and the engine is not contacted. -/
theorem startPublishMediaStream_duplicate_rejected (pool : TaskPool) (sid : String)
    (mode : TRTCPublishMode) (urls : List String) (newTaskId : String)
    (h : ∃ t ∈ pool, t.owner = sid ∧ t.mode = mode ∧
           (∀ u ∈ t.cdnUrls, u ∈ urls) ∧ (∀ u ∈ urls, u ∈ t.cdnUrls)) :
    (startPublishMediaStream pool sid mode urls newTaskId).result
        = Except.error PublishError.DuplicatePublishTarget
  ∧ (startPublishMediaStream pool sid mode urls newTaskId).engineContacted = false := by
  obtain ⟨t, ht, h1, h2, h3, h4⟩ := h
  have hd := duplicateTarget_of_mem pool sid mode urls t ht h1 h2 h3 h4
  constructor <;> simp [startPublishMediaStream, hd]

/-- Witness for C5: re-starting a task with the URL set {u1,u2,u3} (listed in
a different order) while session `s1` already publishes to it is rejected
locally. -/
theorem startPublishMediaStream_duplicate_rejected_witness :
    (startPublishMediaStream demoPool "s1" TRTCPublishMode.MixStreamToCdn
        ["u3", "u1", "u2"] "t9").result = Except.error PublishError.DuplicatePublishTarget
  ∧ (startPublishMediaStream demoPool "s1" TRTCPublishMode.MixStreamToCdn
        ["u3", "u1", "u2"] "t9").engineContacted = false :=
  startPublishMediaStream_duplicate_rejected demoPool "s1" TRTCPublishMode.MixStreamToCdn
    ["u3", "u1", "u2"] "t9"
    ⟨{ taskId := "t1", owner := "s1", mode := TRTCPublishMode.MixStreamToCdn,
       cdnUrls := ["u1", "u2", "u3"] }, by decide, by decide, by decide, by decide, by decide⟩

/-- C9: `startAudioRecording` returns exactly one of the four documented
codes (0 success, -1 already started, -2 file not creatable, -3 format
unsupported), and the return value is negative if and only if the call did
not start a recording (the recorder state is unchanged). -/
theorem startAudioRecording_result_codes (rec : AudioRecorder)
    (param : TRTCAudioRecordingParams) (fileCreatable : Bool) :
    ((startAudioRecording rec param fileCreatable).1 = 0
      ∨ (startAudioRecording rec param fileCreatable).1 = -1
      ∨ (startAudioRecording rec param fileCreatable).1 = -2
      ∨ (startAudioRecording rec param fileCreatable).1 = -3)
  ∧ ((startAudioRecording rec param fileCreatable).1 < 0
      ↔ (startAudioRecording rec param fileCreatable).2 = rec) := by
  obtain ⟨b⟩ := rec
  cases b <;> cases fileCreatable <;>
    cases hsupp : supportedAudioExt param.filePath <;>
      simp [startAudioRecording, hsupp]

/-- Witness for C9: starting a recording to a supported `.wav` path on an
idle recorder succeeds with code 0 and a negative code is returned exactly
when the state is unchanged. -/
theorem startAudioRecording_result_codes_witness :
    ((startAudioRecording { recording := false } { filePath := "rec.wav" } true).1 = 0
      ∨ (startAudioRecording { recording := false } { filePath := "rec.wav" } true).1 = -1
      ∨ (startAudioRecording { recording := false } { filePath := "rec.wav" } true).1 = -2
      ∨ (startAudioRecording { recording := false } { filePath := "rec.wav" } true).1 = -3)
  ∧ ((startAudioRecording { recording := false } { filePath := "rec.wav" } true).1 < 0
      ↔ (startAudioRecording { recording := false } { filePath := "rec.wav" } true).2
          = { recording := false }) :=
  startAudioRecording_result_codes { recording := false } { filePath := "rec.wav" } true

/-- C10: `mixExternalAudioFrame` returns -1 exactly when the custom audio
track was not first enabled through `enableMixExternalAudioFrame`; a negative
return value occurs exactly in that error case, and otherwise the return
value is the non-negative size in milliseconds of the internal buffer
pool. -/
theorem mixExternalAudioFrame_result (m : ExternalAudioMixer) (f : TRTCAudioFrame) :
    ((mixExternalAudioFrame m f).1 = -1 ↔ mixEnabled m = false)
  ∧ ((mixExternalAudioFrame m f).1 < 0 ↔ mixEnabled m = false)
  ∧ (mixEnabled m = true →
       (mixExternalAudioFrame m f).1 = ((mixExternalAudioFrame m f).2.bufferMs : Int)
     ∧ 0 ≤ (mixExternalAudioFrame m f).1) := by
  cases hm : mixEnabled m
  · simp [mixExternalAudioFrame, hm]
  · simp [mixExternalAudioFrame, hm]
    omega

/-- Witness for C10: on an enabled mixer with 30 ms buffered, mixing a 20 ms
frame returns the new 50 ms buffer size, a non-negative value. -/
theorem mixExternalAudioFrame_result_witness :
    (mixExternalAudioFrame demoMixer demoFrame).1
        = ((mixExternalAudioFrame demoMixer demoFrame).2.bufferMs : Int)
  ∧ 0 ≤ (mixExternalAudioFrame demoMixer demoFrame).1 :=
  (mixExternalAudioFrame_result demoMixer demoFrame).2.2 (by decide)

/-- C1: `enterRoom` returns void synchronously (the session merely advances
to the Entering phase) and the outcome is delivered through exactly one
asynchronous `onEnterRoom` completion event: on success the event carries a
non-negative latency in milliseconds and the session is Joined; on failure it
carries a negative error code and the session is rolled back to the Idle
pre-command state. -/
theorem enterRoom_single_async_completion (s : Session) (p : TRTCParams)
    (scene : TRTCAppScene) (ack : EnterAck) (h : s.phase = RoomPhase.Idle) :
    (enterRoomSync s p scene).1 = ()
  ∧ (enterRoomSync s p scene).2.phase = RoomPhase.Entering
  ∧ (enterRoomCmd s p scene ack).2.length = 1
  ∧ (∀ ms, ack = EnterAck.success ms →
       (enterRoomCmd s p scene ack).2 = [CompletionEvent.onEnterRoom (ms : Int)]
     ∧ 0 ≤ ((ms : Nat) : Int)
     ∧ (enterRoomCmd s p scene ack).1.phase = RoomPhase.Joined)
  ∧ (∀ e, ack = EnterAck.failure e →
       (enterRoomCmd s p scene ack).2 = [CompletionEvent.onEnterRoom (-(1 + (e : Int)))]
     ∧ (-(1 + ((e : Nat) : Int))) < 0
     ∧ (enterRoomCmd s p scene ack).1 = s
     ∧ (enterRoomCmd s p scene ack).1.phase = RoomPhase.Idle) := by
  refine ⟨rfl, rfl, ?_, ?_, ?_⟩
  · cases ack <;> simp [enterRoomCmd]
  · rintro ms rfl
    exact ⟨rfl, Int.ofNat_nonneg ms, rfl⟩
  · rintro e rfl
    refine ⟨rfl, by omega, rfl, h⟩

/-- Witness for C1: entering from a fresh (Idle) session with a successful
acknowledgment after 30 ms yields exactly one completion event and the
Joined phase. -/
theorem enterRoom_single_async_completion_witness :
    (enterRoomCmd freshSession demoParams TRTCAppScene.Live (EnterAck.success 30)).2.length = 1
  ∧ (enterRoomCmd freshSession demoParams TRTCAppScene.Live (EnterAck.success 30)).2
      = [CompletionEvent.onEnterRoom (30 : Int)]
  ∧ (enterRoomCmd freshSession demoParams TRTCAppScene.Live
       (EnterAck.success 30)).1.phase = RoomPhase.Joined :=
  ⟨(enterRoom_single_async_completion freshSession demoParams TRTCAppScene.Live
      (EnterAck.success 30) rfl).2.2.1,
   ((enterRoom_single_async_completion freshSession demoParams TRTCAppScene.Live
      (EnterAck.success 30) rfl).2.2.2.1 30 rfl).1,
   ((enterRoom_single_async_completion freshSession demoParams TRTCAppScene.Live
      (EnterAck.success 30) rfl).2.2.2.1 30 rfl).2.2⟩

/-- C7: after `enterRoom` followed by `exitRoom`, the session is
indistinguishable from a freshly constructed session on the components the
spec names: the stream registry is empty, every remote mute and pause flag is
back to the unmuted default, and the role is the default; the phase is Idle
again as well. -/
theorem enterRoom_exitRoom_roundtrip_fresh (s : Session) (p : TRTCParams)
    (scene : TRTCAppScene) :
    (exitRoomDone (enterRoomDone s p scene)).registry = freshSession.registry
  ∧ (exitRoomDone (enterRoomDone s p scene)).muteAllRemoteAudioFlag
      = freshSession.muteAllRemoteAudioFlag
  ∧ (exitRoomDone (enterRoomDone s p scene)).muteAllRemoteVideoFlag
      = freshSession.muteAllRemoteVideoFlag
  ∧ (exitRoomDone (enterRoomDone s p scene)).remoteAudioMuted
      = freshSession.remoteAudioMuted
  ∧ (exitRoomDone (enterRoomDone s p scene)).remoteVideoPaused
      = freshSession.remoteVideoPaused
  ∧ (exitRoomDone (enterRoomDone s p scene)).role = freshSession.role
  ∧ (exitRoomDone (enterRoomDone s p scene)).phase = freshSession.phase
  ∧ (exitRoomDone (enterRoomDone s p scene)).room = freshSession.room :=
  ⟨rfl, rfl, rfl, rfl, rfl, rfl, rfl, rfl⟩

/-- The room reference `enterRoom` resolves from re-entry parameters built
out of a switch configuration agrees with the reference `switchRoom`
resolves, whenever the latter accepts the configuration. -/
theorem enterRoomResolveRef_of_resolveSwitchRoomRef (cfg : TRTCSwitchRoomConfig)
    (ref : RoomRef) (u : String) (role : TRTCRoleType)
    (h : resolveSwitchRoomRef cfg = some ref) :
    enterRoomResolveRef
        { userId := u, roomId := cfg.roomId, strRoomId := cfg.strRoomId, role := role } = ref := by
  unfold resolveSwitchRoomRef at h
  unfold enterRoomResolveRef
  by_cases h0 : cfg.roomId = 0
  · simp [h0] at h ⊢
    by_cases hs : cfg.strRoomId = ""
    · simp [hs] at h
    · simp [hs] at h
      exact h
  · simp [h0] at h ⊢
    exact h

/-- C3: for a joined session, `switchRoom` in the Audience role produces
exactly the state of `exitRoom` on the current room followed by a successful
`enterRoom` into the new room with the same identity, role and scene; in the
Anchor role it preserves the local capture and publishing state (camera
preview, sound capturing, local mute flags) and the Anchor role across the
transition. -/
theorem switchRoom_role_semantics (s : Session) (cfg : TRTCSwitchRoomConfig)
    (ref : RoomRef) (href : resolveSwitchRoomRef cfg = some ref) :
    (s.role = TRTCRoleType.Audience →
       switchRoom s cfg =
         enterRoomDone (exitRoomDone s)
           { userId := s.userId, roomId := cfg.roomId, strRoomId := cfg.strRoomId,
             role := TRTCRoleType.Audience } s.scene)
  ∧ (s.role = TRTCRoleType.Anchor →
       (switchRoom s cfg).localPreviewOn = s.localPreviewOn
     ∧ (switchRoom s cfg).localAudioOn = s.localAudioOn
     ∧ (switchRoom s cfg).muteLocalAudioFlag = s.muteLocalAudioFlag
     ∧ (switchRoom s cfg).muteLocalVideoFlag = s.muteLocalVideoFlag
     ∧ (switchRoom s cfg).role = TRTCRoleType.Anchor) := by
  have hr := enterRoomResolveRef_of_resolveSwitchRoomRef cfg ref s.userId
    TRTCRoleType.Audience href
  constructor
  · intro hrole
    unfold switchRoom
    rw [href]
    simp only [hrole, if_pos rfl]
    unfold enterRoomDone exitRoomDone
    simp [hr, hrole]
  · intro hrole
    have hra : s.role = TRTCRoleType.Audience → False := by
      intro hx; rw [hrole] at hx; exact TRTCRoleType.noConfusion hx
    unfold switchRoom
    rw [href]
    simp [hra, hrole]

/-- Witness for C3: switching the concrete joined Audience session to the
room of `demoCfg` equals exiting and re-entering with the same identity. -/
theorem switchRoom_role_semantics_witness :
    switchRoom demoSession demoCfg =
      enterRoomDone (exitRoomDone demoSession)
        { userId := demoSession.userId, roomId := demoCfg.roomId,
          strRoomId := demoCfg.strRoomId, role := TRTCRoleType.Audience }
        demoSession.scene :=
  (switchRoom_role_semantics demoSession demoCfg (RoomRef.numeric 42) (by decide)).1 (by decide)

/-- Filtering the registry can only remove entries: an entry key present
afterwards was present before. -/
theorem hasEntry_of_filter (r : Registry) (p : RegEntry → Bool) (u : String)
    (st : TRTCVideoStreamType) (h : hasEntry (r.filter p) u st) : hasEntry r u st := by
  obtain ⟨e, he, h1, h2⟩ := h
  exact ⟨e, (List.mem_filter.mp he).1, h1, h2⟩

/-- Mapping a key-preserving update over the registry does not change which
entry keys are present. -/
theorem hasEntry_map_iff (r : Registry) (f : RegEntry → RegEntry)
    (hf : ∀ e, (f e).userId = e.userId ∧ (f e).streamType = e.streamType) (u : String)
    (st : TRTCVideoStreamType) : hasEntry (r.map f) u st ↔ hasEntry r u st := by
  constructor
  · rintro ⟨e, he, h1, h2⟩
    obtain ⟨e0, he0, rfl⟩ := List.mem_map.mp he
    exact ⟨e0, he0, by rw [← (hf e0).1]; exact h1, by rw [← (hf e0).2]; exact h2⟩
  · rintro ⟨e, he, h1, h2⟩
    exact ⟨f e, List.mem_map.mpr ⟨e, he, rfl⟩, by rw [(hf e).1]; exact h1,
      by rw [(hf e).2]; exact h2⟩

/-- An entry key present after a `subscribe` is either the newly subscribed
key or a key that was already present and is not the excluded Big/Small
partner of the subscribing user. -/
theorem hasEntry_subscribe_cases (r : Registry) (u0 : String) (st0 : TRTCVideoStreamType)
    (t : Nat) (u : String) (st : TRTCVideoStreamType)
    (h : hasEntry (subscribe r u0 st0 t) u st) :
    (u = u0 ∧ st = st0) ∨ (hasEntry r u st ∧ ¬(u = u0 ∧ some st = rival st0)) := by
  obtain ⟨e, he, h1, h2⟩ := h
  unfold subscribe at he
  rw [List.mem_cons] at he
  cases he with
  | inl hnew =>
    subst hnew
    exact Or.inl ⟨h1.symm, h2.symm⟩
  | inr hold =>
    have hmem := List.mem_filter.mp hold
    have hmem2 := List.mem_filter.mp hmem.1
    refine Or.inr ⟨⟨e, hmem2.1, h1, h2⟩, ?_⟩
    rintro ⟨hu, hst⟩
    have hpred := hmem2.2
    rw [Bool.not_eq_true', decide_eq_false_iff_not] at hpred
    exact hpred ⟨h1.trans hu, by rw [h2]; exact hst⟩

/-- Subscribing a user to the Small stream removes every trace of that
user's Big stream: afterwards the Big stream is not even present, let alone
Active. -/
theorem subscribe_small_clears_big (r : Registry) (u : String) (t : Nat) :
    ¬ activeFor (subscribe r u TRTCVideoStreamType.Small t) u TRTCVideoStreamType.Big := by
  rintro ⟨e, he, h1, h2, _⟩
  unfold subscribe at he
  rw [List.mem_cons] at he
  cases he with
  | inl hnew =>
    subst hnew
    exact TRTCVideoStreamType.noConfusion h2
  | inr hold =>
    have hpred := (List.mem_filter.mp (List.mem_filter.mp hold).1).2
    rw [Bool.not_eq_true', decide_eq_false_iff_not] at hpred
    exact hpred ⟨h1, by rw [h2]; rfl⟩

/-- The empty registry has no Big/Small entry pair. -/
theorem noBigSmallPair_nil : noBigSmallPair [] := by
  rintro u ⟨⟨e, he, _⟩, _⟩
  exact absurd he (List.not_mem_nil e)

/-- Never-both-Active follows from the structural no-pair invariant. -/
theorem bigSmallExclusive_of_noBigSmallPair (r : Registry) (h : noBigSmallPair r) :
    bigSmallExclusive r := by
  rintro u ⟨hB, hS⟩
  obtain ⟨eB, heB, hB1, hB2, _⟩ := hB
  obtain ⟨eS, heS, hS1, hS2, _⟩ := hS
  exact h u ⟨⟨eB, heB, hB1, hB2⟩, ⟨eS, heS, hS1, hS2⟩⟩

/-- Every Stream Registry operation preserves the structural invariant that
no user holds Big and Small entries simultaneously. -/
theorem noBigSmallPair_applyRegOp (op : RegOp) (r : Registry) (h : noBigSmallPair r) :
    noBigSmallPair (applyRegOp op r) := by
  cases op with
  | subscribe u0 st0 t =>
    rintro u ⟨hB, hS⟩
    have hB' := hasEntry_subscribe_cases r u0 st0 t u TRTCVideoStreamType.Big hB
    have hS' := hasEntry_subscribe_cases r u0 st0 t u TRTCVideoStreamType.Small hS
    cases hB' with
    | inl h1 =>
      cases hS' with
      | inl h2 => exact TRTCVideoStreamType.noConfusion (h1.2.trans h2.2.symm)
      | inr h2 => exact h2.2 ⟨h1.1, by rw [← h1.2]; rfl⟩
    | inr h1 =>
      cases hS' with
      | inl h2 => exact h1.2 ⟨h2.1, by rw [← h2.2]; rfl⟩
      | inr h2 => exact h u ⟨h1.1, h2.1⟩
  | unsubscribe u0 st0 =>
    rintro u ⟨hB, hS⟩
    exact h u ⟨hasEntry_of_filter r _ u TRTCVideoStreamType.Big hB,
      hasEntry_of_filter r _ u TRTCVideoStreamType.Small hS⟩
  | unsubscribeAll =>
    exact noBigSmallPair_nil
  | setMute u0 st0 m =>
    rintro u ⟨hB, hS⟩
    have hf : ∀ e : RegEntry,
        ((if e.userId = u0 ∧ e.streamType = st0 then
            { e with state := if m then SubState.Muted else SubState.Active }
          else e) : RegEntry).userId = e.userId ∧
        ((if e.userId = u0 ∧ e.streamType = st0 then
            { e with state := if m then SubState.Muted else SubState.Active }
          else e) : RegEntry).streamType = e.streamType := by
      intro e
      by_cases hc : e.userId = u0 ∧ e.streamType = st0 <;> simp [hc]
    exact h u ⟨(hasEntry_map_iff r _ hf u TRTCVideoStreamType.Big).mp hB,
      (hasEntry_map_iff r _ hf u TRTCVideoStreamType.Small).mp hS⟩
  | updateTarget u0 st0 t =>
    rintro u ⟨hB, hS⟩
    have hf : ∀ e : RegEntry,
        ((if e.userId = u0 ∧ e.streamType = st0 then { e with target := some t }
          else e) : RegEntry).userId = e.userId ∧
        ((if e.userId = u0 ∧ e.streamType = st0 then { e with target := some t }
          else e) : RegEntry).streamType = e.streamType := by
      intro e
      by_cases hc : e.userId = u0 ∧ e.streamType = st0 <;> simp [hc]
    exact h u ⟨(hasEntry_map_iff r _ hf u TRTCVideoStreamType.Big).mp hB,
      (hasEntry_map_iff r _ hf u TRTCVideoStreamType.Small).mp hS⟩

/-- The structural invariant holds along every operation sequence. -/
theorem noBigSmallPair_applyRegOps (ops : List RegOp) (r : Registry)
    (h : noBigSmallPair r) : noBigSmallPair (applyRegOps ops r) := by
  induction ops generalizing r with
  | nil => exact h
  | cons op ops ih => exact ih (applyRegOp op r) (noBigSmallPair_applyRegOp op r h)

/-- C2: the Big and Small subscriptions of one user are never both Active:
in every registry state reachable by Stream Registry operations the
exclusivity invariant holds, every single operation preserves it, subscribing
to Small transparently removes the user's Active Big subscription, and
Big+Sub may be held simultaneously (as may Small+Sub). -/
theorem registry_big_small_never_both_active :
    (∀ ops : List RegOp, bigSmallExclusive (applyRegOps ops []))
  ∧ (∀ (op : RegOp) (r : Registry), noBigSmallPair r →
       noBigSmallPair (applyRegOp op r) ∧ bigSmallExclusive (applyRegOp op r))
  ∧ (∀ (r : Registry) (u : String) (t : Nat),
       ¬ activeFor (subscribe r u TRTCVideoStreamType.Small t) u TRTCVideoStreamType.Big)
  ∧ (activeFor demoRegistry "alice" TRTCVideoStreamType.Big
     ∧ activeFor demoRegistry "alice" TRTCVideoStreamType.Sub) := by
  refine ⟨?_, ?_, ?_, ?_⟩
  · intro ops
    exact bigSmallExclusive_of_noBigSmallPair _
      (noBigSmallPair_applyRegOps ops [] noBigSmallPair_nil)
  · intro op r hr
    exact ⟨noBigSmallPair_applyRegOp op r hr,
      bigSmallExclusive_of_noBigSmallPair _ (noBigSmallPair_applyRegOp op r hr)⟩
  · exact subscribe_small_clears_big
  · constructor
    · exact ⟨{ userId := "alice", streamType := TRTCVideoStreamType.Big,
               state := SubState.Active, target := some 1 }, by decide, rfl, rfl, rfl⟩
    · exact ⟨{ userId := "alice", streamType := TRTCVideoStreamType.Sub,
               state := SubState.Active, target := some 2 }, by decide, rfl, rfl, rfl⟩

/-- Witness for C2: subscribing "alice" to Small on the concrete Big+Sub
registry leaves no Active Big stream for "alice", and one concrete operation
step preserves the invariant. -/
theorem registry_big_small_never_both_active_witness :
    ¬ activeFor (subscribe demoRegistry "alice" TRTCVideoStreamType.Small 3)
        "alice" TRTCVideoStreamType.Big
  ∧ bigSmallExclusive
      (applyRegOp (RegOp.subscribe "alice" TRTCVideoStreamType.Small 3) demoRegistry) := by
  constructor
  · exact registry_big_small_never_both_active.2.2.1 demoRegistry "alice" 3
  · refine (registry_big_small_never_both_active.2.1
      (RegOp.subscribe "alice" TRTCVideoStreamType.Small 3) demoRegistry ?_).2
    exact noBigSmallPair_applyRegOps
      [RegOp.subscribe "alice" TRTCVideoStreamType.Big 1,
       RegOp.subscribe "alice" TRTCVideoStreamType.Sub 2] [] noBigSmallPair_nil

/-- Counterexample for C8: the multi-session model has a reachable state
with two simultaneously publishing sessions — the controller layer does not
arbitrate cross-session publish ownership. After the main instance enters a
room as an Anchor and a sub-instance also enters a room as an Anchor,
without demoting or muting the first, both instances hold active local
publish ownership at once. -/
theorem single_publisher_not_enforced_counterexample :
    ¬ atMostOnePublisher (runProc twoPublishersCmds) := by
  intro h
  have hmain : ("main", applySessCmd
      (SessCmd.enterRoomOk demoParams TRTCAppScene.Live) freshSession)
      ∈ runProc twoPublishersCmds := by decide
  have hsub : ("sub", applySessCmd
      (SessCmd.enterRoomOk
        { userId := "alice", roomId := 102, strRoomId := "", role := TRTCRoleType.Anchor }
        TRTCAppScene.Live) freshSession)
      ∈ runProc twoPublishersCmds := by decide
  have := h _ hmain _ hsub (by decide) (by decide)
  exact absurd this (by decide)

/-- C8 (amended): at most one session publishing is maintained by the
caller-coordinated protocol, not by the controller: a command addressed to
one instance changes only that instance, so when the caller follows the
documented protocol — only issuing commands to a session while every
currently publishing session is that same target (the old anchor having been
demoted and muted first) — the resulting state has at most one publishing
session; creating a sub-instance likewise preserves the bound, since a fresh
session does not publish. -/
theorem single_publisher_protocol_preserved :
    (∀ (p : ProcState) (target : String) (c : SessCmd),
       (∀ x ∈ p, isPublishing x.2 = true → x.1 = target) →
       atMostOnePublisher (applyProcCmd p (ProcCmd.toSession target c)))
  ∧ (∀ (p : ProcState) (id : String),
       atMostOnePublisher p →
       atMostOnePublisher (applyProcCmd p (ProcCmd.createSubCloud id))) := by
  constructor
  · intro p target c h
    have key : ∀ a ∈ applyProcCmd p (ProcCmd.toSession target c),
        isPublishing a.2 = true → a.1 = target := by
      intro a ha hpub
      obtain ⟨x, hx, rfl⟩ := List.mem_map.mp ha
      by_cases hxt : x.1 = target
      · simp [hxt]
      · rw [if_neg hxt] at hpub ⊢
        exact h x hx hpub
    intro a ha b hb hpa hpb
    rw [key a ha hpa, key b hb hpb]
  · intro p id h a ha b hb hpa hpb
    unfold applyProcCmd at ha hb
    rw [List.mem_append] at ha hb
    cases ha with
    | inl ha' =>
      cases hb with
      | inl hb' => exact h a ha' b hb' hpa hpb
      | inr hb' =>
        rw [List.mem_singleton] at hb'
        rw [hb'] at hpb
        have hfresh : isPublishing freshSession = false := by decide
        exact absurd hpb (by simp [hfresh])
    | inr ha' =>
      rw [List.mem_singleton] at ha'
      rw [ha'] at hpa
      have hfresh : isPublishing freshSession = false := by decide
      exact absurd hpa (by simp [hfresh])

/-- Witness for C8 (amended): after the main anchor is demoted to Audience,
promoting the sub-instance keeps at most one publisher. -/
theorem single_publisher_protocol_preserved_witness :
    atMostOnePublisher
      (applyProcCmd
        (runProc (twoPublishersCmds.take 2 ++
          [ProcCmd.toSession "main" (SessCmd.switchRole TRTCRoleType.Audience)]))
        (ProcCmd.toSession "sub"
          (SessCmd.enterRoomOk
            { userId := "alice", roomId := 102, strRoomId := "", role := TRTCRoleType.Anchor }
            TRTCAppScene.Live))) :=
  single_publisher_protocol_preserved.1 _ "sub" _ (by decide)

end TRTC
